import Mathlib

/-!
Shallow embedding of `src/cratis-core/src/config.rs` (repository Lum1n0sity/Verbaq):
a YAML-backed configuration loader/holder.

The Rust file defines serde-deserializable structs (`CratisConfig`, `ClientConfig`,
`BackupConfig`, `BackupMode`, `ServerConfig`, `AdvancedConfig`), a process-wide
`OnceCell` holder `CONFIG`, and two operations `load_config` and `get_config`.

Modelling decisions:
- YAML values are modelled by the inductive `Yaml`; the textual YAML parser
  (library `serde_yaml`, not part of this repository) is an abstract parameter
  `parseYaml : String → Option Yaml`, and the filesystem read
  (`std::fs::read_to_string`) is an abstract parameter
  `readFile : String → Option String`.
- serde derive deserialization is translated field by field: struct input must
  be a mapping; required fields are looked up by name and must deserialize;
  `Option` fields are `none` when the key is absent or null; unknown keys are
  ignored (no `deny_unknown_fields` attribute in the source).
- `#[serde(rename_all = "lowercase")]` on `BackupMode` renames the variants to
  the exact strings "full" and "incremental"; serde variant matching is an
  exact string comparison.
- Rust panics become error results: `ConfigError` carries the four conditions.
  `Result::expect` on `OnceCell::set`'s error formats the panic message as
  "Config already initialized: " followed by the `Debug` rendering of the
  rejected `CratisConfig` value; the derived `Debug` format is translated in
  the `debugFmt` functions.
- The process-wide holder state is an explicit `Option CratisConfig` threaded
  through `load_config` and `get_config`.
-/

namespace Cratis

/-- A YAML value as produced by the YAML parser: scalars (string, integer,
boolean, null), sequences, and mappings (ordered key/value lists). -/
inductive Yaml where
  | str (s : String)
  | int (n : Int)
  | bool (b : Bool)
  | null
  | seq (items : List Yaml)
  | map (entries : List (String × Yaml))

/-- First-match lookup of a key in a YAML mapping. -/
def Yaml.find : List (String × Yaml) → String → Option Yaml
  | [], _ => none
  | (k, v) :: rest, key => if k = key then some v else Yaml.find rest key

/-- Rust `enum BackupMode` from the source: variants `Full` and `Incremental`,
renamed to lowercase for serde. -/
inductive BackupMode where
  | full
  | incremental
deriving Repr, DecidableEq

/-- Rust `struct ClientConfig` from the source. -/
structure ClientConfig where
  id : String
  name : String
deriving Repr, DecidableEq

/-- Rust `struct BackupConfig` from the source. `u64` is modelled as `Nat` bounded
by `2 ^ 64` at deserialization time. -/
structure BackupConfig where
  mode : BackupMode
  watch_directories : List String
  exclude : Option (List String)
  interval_seconds : Option Nat
deriving Repr, DecidableEq

/-- Rust `struct ServerConfig` from the source. -/
structure ServerConfig where
  address : String
  auth_token : String
deriving Repr, DecidableEq

/-- Rust `struct AdvancedConfig` from the source. -/
structure AdvancedConfig where
  max_file_size_mb : Option Nat
  retry_attempts : Option Nat
  retry_delay_seconds : Option Nat
  enable_notifications : Option Bool
deriving Repr, DecidableEq

/-- Rust `struct CratisConfig` from the source: the root configuration record. -/
structure CratisConfig where
  client : ClientConfig
  backup : BackupConfig
  server : ServerConfig
  advanced : Option AdvancedConfig
deriving Repr, DecidableEq

/-- serde deserialization of `String`: the YAML value must be a string scalar. -/
def deserializeString : Yaml → Option String
  | .str s => some s
  | _ => none

/-- serde deserialization of `u64`: a non-negative integer below `2 ^ 64`. -/
def deserializeU64 : Yaml → Option Nat
  | .int n => if 0 ≤ n ∧ n < (2 : Int) ^ 64 then some n.toNat else none
  | _ => none

/-- serde deserialization of `u32`: a non-negative integer below `2 ^ 32`. -/
def deserializeU32 : Yaml → Option Nat
  | .int n => if 0 ≤ n ∧ n < (2 : Int) ^ 32 then some n.toNat else none
  | _ => none

/-- serde deserialization of `bool`. -/
def deserializeBool : Yaml → Option Bool
  | .bool b => some b
  | _ => none

/-- serde deserialization of `Vec of String`: a sequence of string scalars. -/
def deserializeStringSeq : Yaml → Option (List String)
  | .seq items => items.mapM deserializeString
  | _ => none

/-- serde handling of a required struct field: the key must be present in the
mapping and its value must deserialize. -/
def deserializeReqField (f : Yaml → Option α) (entries : List (String × Yaml))
    (key : String) : Option α :=
  Yaml.find entries key >>= f

/-- serde handling of an `Option` struct field: an absent key or a null value
yields `none`; a present non-null value must deserialize. -/
def deserializeOptField (f : Yaml → Option α) (entries : List (String × Yaml))
    (key : String) : Option (Option α) :=
  match Yaml.find entries key with
  | none => some none
  | some .null => some none
  | some v => (f v).map some

/-- serde deserialization of `BackupMode` under `rename_all = "lowercase"`:
an exact string match against "full" or "incremental". -/
def deserializeBackupMode : Yaml → Option BackupMode
  | .str s =>
      if s = "full" then some .full
      else if s = "incremental" then some .incremental
      else none
  | _ => none

/-- serde derive deserialization of `ClientConfig`. -/
def deserializeClientConfig : Yaml → Option ClientConfig
  | .map entries => do
      let i ← deserializeReqField deserializeString entries "id"
      let n ← deserializeReqField deserializeString entries "name"
      pure { id := i, name := n }
  | _ => none

/-- serde derive deserialization of `BackupConfig`. -/
def deserializeBackupConfig : Yaml → Option BackupConfig
  | .map entries => do
      let m ← deserializeReqField deserializeBackupMode entries "mode"
      let w ← deserializeReqField deserializeStringSeq entries "watch_directories"
      let e ← deserializeOptField deserializeStringSeq entries "exclude"
      let s ← deserializeOptField deserializeU64 entries "interval_seconds"
      pure { mode := m, watch_directories := w, exclude := e, interval_seconds := s }
  | _ => none

/-- serde derive deserialization of `ServerConfig`. -/
def deserializeServerConfig : Yaml → Option ServerConfig
  | .map entries => do
      let a ← deserializeReqField deserializeString entries "address"
      let t ← deserializeReqField deserializeString entries "auth_token"
      pure { address := a, auth_token := t }
  | _ => none

/-- serde derive deserialization of `AdvancedConfig`. -/
def deserializeAdvancedConfig : Yaml → Option AdvancedConfig
  | .map entries => do
      let m ← deserializeOptField deserializeU64 entries "max_file_size_mb"
      let r ← deserializeOptField deserializeU32 entries "retry_attempts"
      let d ← deserializeOptField deserializeU64 entries "retry_delay_seconds"
      let e ← deserializeOptField deserializeBool entries "enable_notifications"
      pure { max_file_size_mb := m, retry_attempts := r,
             retry_delay_seconds := d, enable_notifications := e }
  | _ => none

/-- serde derive deserialization of the root `CratisConfig`. -/
def deserializeCratisConfig : Yaml → Option CratisConfig
  | .map entries => do
      let c ← deserializeReqField deserializeClientConfig entries "client"
      let b ← deserializeReqField deserializeBackupConfig entries "backup"
      let s ← deserializeReqField deserializeServerConfig entries "server"
      let a ← deserializeOptField deserializeAdvancedConfig entries "advanced"
      pure { client := c, backup := b, server := s, advanced := a }
  | _ => none

/-- Rust derived `Debug` rendering of a `String` value (quoted). -/
def debugStr (s : String) : String := "\"" ++ s ++ "\""

/-- Rust derived `Debug` rendering of an `Option` value. -/
def debugOpt (f : α → String) : Option α → String
  | none => "None"
  | some a => "Some(" ++ f a ++ ")"

/-- Rust derived `Debug` rendering of a `Vec`. -/
def debugList (f : α → String) (xs : List α) : String :=
  "[" ++ String.intercalate ", " (xs.map f) ++ "]"

/-- Rust derived `Debug` rendering of `BackupMode`. -/
def BackupMode.debugFmt : BackupMode → String
  | .full => "Full"
  | .incremental => "Incremental"

/-- Rust derived `Debug` rendering of `ClientConfig`. -/
def ClientConfig.debugFmt (c : ClientConfig) : String :=
  "ClientConfig \x7b id: " ++ debugStr c.id ++ ", name: " ++ debugStr c.name ++ " \x7d"

/-- Rust derived `Debug` rendering of `BackupConfig`. -/
def BackupConfig.debugFmt (b : BackupConfig) : String :=
  "BackupConfig \x7b mode: " ++ b.mode.debugFmt ++
  ", watch_directories: " ++ debugList debugStr b.watch_directories ++
  ", exclude: " ++ debugOpt (debugList debugStr) b.exclude ++
  ", interval_seconds: " ++ debugOpt toString b.interval_seconds ++ " \x7d"

/-- Rust derived `Debug` rendering of `ServerConfig`. -/
def ServerConfig.debugFmt (s : ServerConfig) : String :=
  "ServerConfig \x7b address: " ++ debugStr s.address ++
  ", auth_token: " ++ debugStr s.auth_token ++ " \x7d"

/-- Rust derived `Debug` rendering of `AdvancedConfig`. -/
def AdvancedConfig.debugFmt (a : AdvancedConfig) : String :=
  "AdvancedConfig \x7b max_file_size_mb: " ++ debugOpt toString a.max_file_size_mb ++
  ", retry_attempts: " ++ debugOpt toString a.retry_attempts ++
  ", retry_delay_seconds: " ++ debugOpt toString a.retry_delay_seconds ++
  ", enable_notifications: " ++ debugOpt (fun b => if b then "true" else "false") a.enable_notifications ++
  " \x7d"

/-- Rust derived `Debug` rendering of `CratisConfig`. -/
def CratisConfig.debugFmt (c : CratisConfig) : String :=
  "CratisConfig \x7b client: " ++ c.client.debugFmt ++
  ", backup: " ++ c.backup.debugFmt ++
  ", server: " ++ c.server.debugFmt ++
  ", advanced: " ++ debugOpt AdvancedConfig.debugFmt c.advanced ++ " \x7d"

/-- The panic message produced by
`CONFIG.set(parsed).expect("Config already initialized")`:
`Result::expect` appends the `Debug` rendering of the error value, which for
`OnceCell::set` is the rejected (freshly parsed) configuration. -/
def alreadyInitializedPanicMsg (parsed : CratisConfig) : String :=
  "Config already initialized: " ++ parsed.debugFmt

/-- The failure conditions of the loader/holder (Rust panics, made explicit).
The already-initialized condition carries the panic message text. -/
inductive ConfigError where
  | fileReadError
  | parseError
  | alreadyInitializedError (panicMsg : String)
  | notInitializedError
deriving Repr, DecidableEq

/-- The process-wide `static CONFIG : OnceCell of CratisConfig` state:
`none` when uninitialized, `some c` once set. -/
abbrev ConfigHolder := Option CratisConfig

/-- Translation of `load_config` from the source, with the filesystem (`fs::read_to_string`)
and the textual YAML parser (`serde_yaml::from_str`, composed here of
`parseYaml` then `deserializeCratisConfig`) as abstract parameters and the
holder state explicit. Steps in source order: read the file (panic
"Failed to read config file" on failure), parse and deserialize (panic
"Invalid config format" on failure), then `CONFIG.set` (panic
"Config already initialized: ..." when the holder already has a value;
`OnceCell::set` leaves the stored value untouched in that case). -/
def load_config (readFile : String → Option String) (parseYaml : String → Option Yaml)
    (path : String) (holder : ConfigHolder) : Except ConfigError Unit × ConfigHolder :=
  match readFile path with
  | none => (.error .fileReadError, holder)
  | some contents =>
    match parseYaml contents >>= deserializeCratisConfig with
    | none => (.error .parseError, holder)
    | some parsed =>
      match holder with
      | some _ => (.error (.alreadyInitializedError (alreadyInitializedPanicMsg parsed)), holder)
      | none => (.ok (), some parsed)

/-- Translation of `get_config` from the source: `CONFIG.get().expect("Config not initialized")`.
A pure read of the holder state; it performs no mutation. -/
def get_config (holder : ConfigHolder) : Except ConfigError CratisConfig :=
  match holder with
  | some c => .ok c
  | none => .error .notInitializedError

/-- One `load_config` call: its filesystem, its parser, and its path. -/
def LoadCall := (String → Option String) × (String → Option Yaml) × String

/-- Runs a sequence of `load_config` calls, threading the holder state
(`get_config` calls never change the state, so only loads are threaded). -/
def runLoads : List LoadCall → ConfigHolder → ConfigHolder
  | [], h => h
  | (rf, py, p) :: rest, h => runLoads rest (load_config rf py p h).2

/-- The example document of spec section 8: client c1/laptop, full backup of
/home/user/docs, server backup.example.com:9000 with auth token secret123,
no advanced block. -/
def exDocEntries : List (String × Yaml) :=
  [("client", .map [("id", .str "c1"), ("name", .str "laptop")]),
   ("backup", .map [("mode", .str "full"),
                    ("watch_directories", .seq [.str "/home/user/docs"])]),
   ("server", .map [("address", .str "backup.example.com:9000"),
                    ("auth_token", .str "secret123")])]

/-- The example document as a YAML value. -/
def exDoc : Yaml := .map exDocEntries

/-- The configuration value the example document deserializes to. -/
def exCfg : CratisConfig :=
  { client := { id := "c1", name := "laptop" },
    backup := { mode := .full, watch_directories := ["/home/user/docs"],
                exclude := none, interval_seconds := none },
    server := { address := "backup.example.com:9000", auth_token := "secret123" },
    advanced := none }

/-- Stand-in for the raw text of the example file. -/
def exText : String := "example-config-text"

/-- A filesystem holding the example file at path config.yaml. -/
def exFs : String → Option String :=
  fun p => if p = "config.yaml" then some exText else none

/-- A YAML parser that parses the example text to the example document. -/
def exParse : String → Option Yaml :=
  fun t => if t = exText then some exDoc else none

example : deserializeCratisConfig exDoc = some exCfg := by rfl

example : load_config exFs exParse "config.yaml" none = (.ok (), some exCfg) := by rfl

/-- A document whose server section omits the required auth_token field. -/
def noTokenEntries : List (String × Yaml) :=
  [("client", .map [("id", .str "c1"), ("name", .str "laptop")]),
   ("backup", .map [("mode", .str "full"),
                    ("watch_directories", .seq [.str "/home/user/docs"])]),
   ("server", .map [("address", .str "backup.example.com:9000")])]

/-- The backup section of the invalid-mode example, with mode token weekly. -/
def weeklyBackupEntries : List (String × Yaml) :=
  [("mode", .str "weekly"), ("watch_directories", .seq [.str "/home/user/docs"])]

/-- A document whose backup mode token is weekly. -/
def weeklyEntries : List (String × Yaml) :=
  [("client", .map [("id", .str "c1"), ("name", .str "laptop")]),
   ("backup", .map weeklyBackupEntries),
   ("server", .map [("address", .str "backup.example.com:9000"),
                    ("auth_token", .str "secret123")])]

/-- A filesystem and parser pair for a file whose content is not a valid
configuration document (the document is a bare string scalar). -/
def badFs : String → Option String :=
  fun p => if p = "config.yaml" then some "bad-text" else none

/-- Parser for the invalid content held by badFs. -/
def badParse : String → Option Yaml :=
  fun t => if t = "bad-text" then some (Yaml.str "oops") else none

/-- Whether one list starts with another (all of needle matches at the head). -/
def listStartsWith [DecidableEq α] : List α → List α → Bool
  | [], _ => true
  | _ :: _, [] => false
  | a :: as, b :: bs => a = b && listStartsWith as bs

/-- Whether needle occurs as a contiguous run anywhere in the list. -/
def listOccurs [DecidableEq α] (needle : List α) : List α → Bool
  | [] => listStartsWith needle []
  | b :: bs => listStartsWith needle (b :: bs) || listOccurs needle bs

/-- Whether needle occurs as a substring of hay. -/
def strOccurs (needle hay : String) : Bool := listOccurs needle.data hay.data

/-- On an already-initialized holder, `load_config` never changes the stored
value: every branch of the source leaves `CONFIG` untouched (`OnceCell::set`
rejects the new value without overwriting). -/
theorem load_config_holder_some (readFile : String → Option String)
    (parseYaml : String → Option Yaml) (path : String) (c : CratisConfig) :
    (load_config readFile parseYaml path (some c)).2 = some c := by
  cases h1 : readFile path with
  | none => simp [load_config, h1]
  | some contents =>
      cases h2 : parseYaml contents >>= deserializeCratisConfig with
      | none => simp [load_config, h1, h2]
      | some parsed => simp [load_config, h1, h2]

/-- C1 (amended): the backup `mode` field deserializes successfully exactly
when the YAML value is the exact string "full" or the exact string
"incremental"; serde variant matching under `rename_all = "lowercase"` is
case-sensitive, so any other token (including other casings) fails. -/
theorem C1_backup_mode_exact_match (y : Yaml) :
    (deserializeBackupMode y).isSome = true ↔
      (y = Yaml.str "full" ∨ y = Yaml.str "incremental") := by
  cases y with
  | str s =>
      by_cases h1 : s = "full"
      · simp [deserializeBackupMode, h1]
      · by_cases h2 : s = "incremental"
        · simp [deserializeBackupMode, h1, h2]
        · simp [deserializeBackupMode, h1, h2]
  | int n => simp [deserializeBackupMode]
  | bool b => simp [deserializeBackupMode]
  | null => simp [deserializeBackupMode]
  | seq items => simp [deserializeBackupMode]
  | map entries => simp [deserializeBackupMode]

/-- C1 witness: the exact lowercase token "incremental" is accepted. -/
theorem C1_backup_mode_exact_match_witness :
    (deserializeBackupMode (Yaml.str "incremental")).isSome = true :=
  (C1_backup_mode_exact_match (Yaml.str "incremental")).mpr (Or.inr rfl)

/-- C1 counterexample: the claim says case-insensitive tokens such as "FULL"
or "Incremental" are accepted, but both are rejected by the code. -/
theorem C1_case_counterexample :
    deserializeBackupMode (Yaml.str "FULL") = none ∧
    deserializeBackupMode (Yaml.str "Incremental") = none :=
  ⟨rfl, rfl⟩

set_option maxRecDepth 4000 in
/-- C2 (code bug): at the example configuration, a second load of the same
file fails with AlreadyInitializedError whose panic message — produced by
`expect` formatting the Debug rendering of the rejected `CratisConfig` —
contains the secret auth_token value secret123, contradicting the spec's
requirement that the token never appear in error output. -/
theorem C2_auth_token_leaked :
    (load_config exFs exParse "config.yaml" (some exCfg)).1
      = .error (.alreadyInitializedError (alreadyInitializedPanicMsg exCfg)) ∧
    strOccurs "secret123" (alreadyInitializedPanicMsg exCfg) = true :=
  ⟨rfl, by decide⟩

/-- C4: when the holder already contains a value, a load whose read and parse
succeed fails with AlreadyInitializedError and the stored value is left in
place rather than being overwritten. -/
theorem C4_second_load_rejected (readFile : String → Option String)
    (parseYaml : String → Option Yaml) (path txt : String) (doc : Yaml)
    (parsed stored : CratisConfig)
    (hread : readFile path = some txt)
    (hparse : parseYaml txt = some doc)
    (hde : deserializeCratisConfig doc = some parsed) :
    load_config readFile parseYaml path (some stored)
      = (.error (.alreadyInitializedError (alreadyInitializedPanicMsg parsed)),
         some stored) := by
  simp [load_config, hread, hparse, hde]

/-- C4 witness: a second load of the identical example file after a first
successful load fails with AlreadyInitializedError and keeps the stored value. -/
theorem C4_second_load_rejected_witness :
    load_config exFs exParse "config.yaml" (some exCfg)
      = (.error (.alreadyInitializedError (alreadyInitializedPanicMsg exCfg)),
         some exCfg) :=
  C4_second_load_rejected exFs exParse "config.yaml" exText exDoc exCfg exCfg rfl rfl rfl

/-- C5: calling get on an uninitialized holder fails with NotInitializedError;
get is a pure read of the holder and performs no mutation. -/
theorem C5_get_before_load : get_config none = .error .notInitializedError := rfl

/-- C8: once the holder contains a value, no sequence of further load calls
(and gets, which never write) mutates or replaces it, and every later get
returns exactly the stored value. -/
theorem C8_write_once (ops : List LoadCall) (c : CratisConfig) :
    runLoads ops (some c) = some c ∧ get_config (runLoads ops (some c)) = .ok c := by
  have h : runLoads ops (some c) = some c := by
    induction ops with
    | nil => rfl
    | cons op rest ih =>
        obtain ⟨rf, py, p⟩ := op
        simpa [runLoads, load_config_holder_some] using ih
  exact ⟨h, by rw [h]; rfl⟩

/-- C8 witness: two further loads of the example file leave the stored example
configuration unchanged. -/
theorem C8_write_once_witness :
    runLoads [(exFs, exParse, "config.yaml"), (exFs, exParse, "config.yaml")]
      (some exCfg) = some exCfg :=
  (C8_write_once [(exFs, exParse, "config.yaml"), (exFs, exParse, "config.yaml")] exCfg).1

/-- C9: load reads the file and parses it before checking initialization, so
with any holder state — initialized included — an unreadable path fails with
the file-read error and invalid content fails with the parse error, not with
AlreadyInitializedError. -/
theorem C9_read_and_parse_precede_init_check (readFile : String → Option String)
    (parseYaml : String → Option Yaml) (path : String) (holder : ConfigHolder) :
    (readFile path = none →
       load_config readFile parseYaml path holder = (.error .fileReadError, holder)) ∧
    (∀ txt, readFile path = some txt →
       parseYaml txt >>= deserializeCratisConfig = none →
       load_config readFile parseYaml path holder = (.error .parseError, holder)) := by
  constructor
  · intro h
    simp [load_config, h]
  · intro txt h1 h2
    simp [load_config, h1, h2]

/-- C9 witness: with the holder already initialized, a missing path yields
FileReadError and invalid content yields ParseError, never
AlreadyInitializedError. -/
theorem C9_read_and_parse_precede_init_check_witness :
    load_config exFs exParse "missing.yaml" (some exCfg)
      = (.error .fileReadError, some exCfg) ∧
    load_config badFs badParse "config.yaml" (some exCfg)
      = (.error .parseError, some exCfg) :=
  ⟨(C9_read_and_parse_precede_init_check exFs exParse "missing.yaml" (some exCfg)).1 rfl,
   (C9_read_and_parse_precede_init_check badFs badParse "config.yaml" (some exCfg)).2
     "bad-text" rfl rfl⟩

/-- Deserializing the root record determines each field of the result: the
stored value's components are exactly the deserialized sections of the
document. -/
theorem deserializeCratisConfig_fields (entries : List (String × Yaml))
    (c : CratisConfig)
    (hde : deserializeCratisConfig (Yaml.map entries) = some c) :
    deserializeReqField deserializeClientConfig entries "client" = some c.client ∧
    deserializeReqField deserializeBackupConfig entries "backup" = some c.backup ∧
    deserializeReqField deserializeServerConfig entries "server" = some c.server ∧
    deserializeOptField deserializeAdvancedConfig entries "advanced" = some c.advanced := by
  simp only [deserializeCratisConfig, bind, Option.bind_eq_some, pure,
    Option.some.injEq] at hde
  obtain ⟨cl, hcl, b, hb, s, hs, a, ha, heq⟩ := hde
  subst heq
  exact ⟨hcl, hb, hs, ha⟩

/-- Deserializing the backup section determines each of its fields. -/
theorem deserializeBackupConfig_fields (entries : List (String × Yaml))
    (b : BackupConfig)
    (hde : deserializeBackupConfig (Yaml.map entries) = some b) :
    deserializeReqField deserializeBackupMode entries "mode" = some b.mode ∧
    deserializeReqField deserializeStringSeq entries "watch_directories"
      = some b.watch_directories ∧
    deserializeOptField deserializeStringSeq entries "exclude" = some b.exclude ∧
    deserializeOptField deserializeU64 entries "interval_seconds"
      = some b.interval_seconds := by
  simp only [deserializeBackupConfig, bind, Option.bind_eq_some, pure,
    Option.some.injEq] at hde
  obtain ⟨m, hm, w, hw, e, he, s, hs, heq⟩ := hde
  subst heq
  exact ⟨hm, hw, he, hs⟩

/-- C3: for a document that deserializes to a configuration, load followed by
get returns exactly that configuration, and optional fields omitted from the
document come back as none. -/
theorem C3_load_get_roundtrip (readFile : String → Option String)
    (parseYaml : String → Option Yaml) (path txt : String) (doc : Yaml)
    (c : CratisConfig)
    (hread : readFile path = some txt)
    (hparse : parseYaml txt = some doc)
    (hde : deserializeCratisConfig doc = some c) :
    load_config readFile parseYaml path none = (.ok (), some c) ∧
    get_config (load_config readFile parseYaml path none).2 = .ok c ∧
    (∀ entries, doc = Yaml.map entries →
       Yaml.find entries "advanced" = none → c.advanced = none) ∧
    (∀ entries bentries, doc = Yaml.map entries →
       Yaml.find entries "backup" = some (Yaml.map bentries) →
       Yaml.find bentries "exclude" = none → c.backup.exclude = none) ∧
    (∀ entries bentries, doc = Yaml.map entries →
       Yaml.find entries "backup" = some (Yaml.map bentries) →
       Yaml.find bentries "interval_seconds" = none →
       c.backup.interval_seconds = none) := by
  have hload : load_config readFile parseYaml path none = (.ok (), some c) := by
    simp [load_config, hread, hparse, hde]
  refine ⟨hload, by rw [hload]; rfl, ?_, ?_, ?_⟩
  · intro entries hdoc hfind
    subst hdoc
    have hadv := (deserializeCratisConfig_fields entries c hde).2.2.2
    simp only [deserializeOptField, hfind, Option.some.injEq] at hadv
    exact hadv.symm
  · intro entries bentries hdoc hback hfind
    subst hdoc
    have hb := (deserializeCratisConfig_fields entries c hde).2.1
    simp only [deserializeReqField, hback, Option.some_bind] at hb
    have he := (deserializeBackupConfig_fields bentries c.backup hb).2.2.1
    simp only [deserializeOptField, hfind, Option.some.injEq] at he
    exact he.symm
  · intro entries bentries hdoc hback hfind
    subst hdoc
    have hb := (deserializeCratisConfig_fields entries c hde).2.1
    simp only [deserializeReqField, hback, Option.some_bind] at hb
    have hs := (deserializeBackupConfig_fields bentries c.backup hb).2.2.2
    simp only [deserializeOptField, hfind, Option.some.injEq] at hs
    exact hs.symm

/-- C3 witness: the spec's example document loads and gets back the example
configuration, with the omitted advanced block absent. -/
theorem C3_load_get_roundtrip_witness :
    load_config exFs exParse "config.yaml" none = (.ok (), some exCfg) ∧
    get_config (load_config exFs exParse "config.yaml" none).2 = .ok exCfg ∧
    exCfg.advanced = none := by
  obtain ⟨h1, h2, h3, _, _⟩ :=
    C3_load_get_roundtrip exFs exParse "config.yaml" exText exDoc exCfg rfl rfl rfl
  exact ⟨h1, h2, h3 exDocEntries rfl rfl⟩

/-- Whether a document is missing one of the required fields of the schema of
spec section 3: the sections client, backup, server, or their required
subfields id, name, mode, watch_directories, address, auth_token. -/
def missingRequired : Yaml → Bool
  | .map entries =>
      (match Yaml.find entries "client" with
       | some (.map ce) => (Yaml.find ce "id").isNone || (Yaml.find ce "name").isNone
       | some _ => false
       | none => true) ||
      (match Yaml.find entries "backup" with
       | some (.map be) =>
           (Yaml.find be "mode").isNone || (Yaml.find be "watch_directories").isNone
       | some _ => false
       | none => true) ||
      (match Yaml.find entries "server" with
       | some (.map se) =>
           (Yaml.find se "address").isNone || (Yaml.find se "auth_token").isNone
       | some _ => false
       | none => true)
  | _ => false

/-- A client section missing id or name fails to deserialize. -/
theorem deserializeClientConfig_none_of_missing (ce : List (String × Yaml))
    (h : ((Yaml.find ce "id").isNone || (Yaml.find ce "name").isNone) = true) :
    deserializeClientConfig (Yaml.map ce) = none := by
  rw [Bool.or_eq_true] at h
  rcases h with h1 | h2
  · rw [Option.isNone_iff_eq_none] at h1
    simp [deserializeClientConfig, deserializeReqField, h1]
  · rw [Option.isNone_iff_eq_none] at h2
    cases hid : Yaml.find ce "id" >>= deserializeString with
    | none => simp [deserializeClientConfig, deserializeReqField, hid]
    | some i => simp [deserializeClientConfig, deserializeReqField, hid, h2]

/-- A backup section missing mode or watch_directories fails to deserialize. -/
theorem deserializeBackupConfig_none_of_missing (be : List (String × Yaml))
    (h : ((Yaml.find be "mode").isNone || (Yaml.find be "watch_directories").isNone)
          = true) :
    deserializeBackupConfig (Yaml.map be) = none := by
  rw [Bool.or_eq_true] at h
  rcases h with h1 | h2
  · rw [Option.isNone_iff_eq_none] at h1
    simp [deserializeBackupConfig, deserializeReqField, h1]
  · rw [Option.isNone_iff_eq_none] at h2
    cases hm : Yaml.find be "mode" >>= deserializeBackupMode with
    | none => simp [deserializeBackupConfig, deserializeReqField, hm]
    | some m => simp [deserializeBackupConfig, deserializeReqField, hm, h2]

/-- A server section missing address or auth_token fails to deserialize. -/
theorem deserializeServerConfig_none_of_missing (se : List (String × Yaml))
    (h : ((Yaml.find se "address").isNone || (Yaml.find se "auth_token").isNone)
          = true) :
    deserializeServerConfig (Yaml.map se) = none := by
  rw [Bool.or_eq_true] at h
  rcases h with h1 | h2
  · rw [Option.isNone_iff_eq_none] at h1
    simp [deserializeServerConfig, deserializeReqField, h1]
  · rw [Option.isNone_iff_eq_none] at h2
    cases ha : Yaml.find se "address" >>= deserializeString with
    | none => simp [deserializeServerConfig, deserializeReqField, ha]
    | some a => simp [deserializeServerConfig, deserializeReqField, ha, h2]

/-- A document missing any required field fails to deserialize. -/
theorem deserializeCratisConfig_none_of_missing (doc : Yaml)
    (h : missingRequired doc = true) : deserializeCratisConfig doc = none := by
  cases doc with
  | map entries =>
      rw [missingRequired, Bool.or_eq_true, Bool.or_eq_true] at h
      rcases h with (hA | hB) | hC
      · cases hc : Yaml.find entries "client" with
        | none => simp [deserializeCratisConfig, deserializeReqField, hc]
        | some v =>
            rw [hc] at hA
            cases v with
            | map ce =>
                simp [deserializeCratisConfig, deserializeReqField, hc,
                  deserializeClientConfig_none_of_missing ce hA]
            | str s => simp at hA
            | int n => simp at hA
            | bool b => simp at hA
            | null => simp at hA
            | seq items => simp at hA
      · cases hcl : deserializeReqField deserializeClientConfig entries "client" with
        | none => simp [deserializeCratisConfig, hcl]
        | some c1 =>
            cases hb : Yaml.find entries "backup" with
            | none => simp [deserializeCratisConfig, deserializeReqField, hcl, hb]
            | some v =>
                rw [hb] at hB
                cases v with
                | map be =>
                    simp [deserializeCratisConfig, deserializeReqField, hcl, hb,
                      deserializeBackupConfig_none_of_missing be hB]
                | str s => simp at hB
                | int n => simp at hB
                | bool b => simp at hB
                | null => simp at hB
                | seq items => simp at hB
      · cases hcl : deserializeReqField deserializeClientConfig entries "client" with
        | none => simp [deserializeCratisConfig, hcl]
        | some c1 =>
            cases hbk : deserializeReqField deserializeBackupConfig entries "backup" with
            | none => simp [deserializeCratisConfig, hcl, hbk]
            | some b1 =>
                cases hs : Yaml.find entries "server" with
                | none =>
                    simp [deserializeCratisConfig, deserializeReqField, hcl, hbk, hs]
                | some v =>
                    rw [hs] at hC
                    cases v with
                    | map se =>
                        simp [deserializeCratisConfig, deserializeReqField, hcl,
                          hbk, hs, deserializeServerConfig_none_of_missing se hC]
                    | str s => simp at hC
                    | int n => simp at hC
                    | bool b => simp at hC
                    | null => simp at hC
                    | seq items => simp at hC
  | str s => simp [missingRequired] at h
  | int n => simp [missingRequired] at h
  | bool b => simp [missingRequired] at h
  | null => simp [missingRequired] at h
  | seq items => simp [missingRequired] at h

/-- C6: loading a document missing any required field fails with ParseError
and leaves the holder uninitialized, storing no partial configuration. -/
theorem C6_missing_required_field (readFile : String → Option String)
    (parseYaml : String → Option Yaml) (path txt : String) (doc : Yaml)
    (hread : readFile path = some txt)
    (hparse : parseYaml txt = some doc)
    (hmiss : missingRequired doc = true) :
    load_config readFile parseYaml path none = (.error .parseError, none) := by
  have hde := deserializeCratisConfig_none_of_missing doc hmiss
  simp [load_config, hread, hparse, hde]

/-- C6 witness: a document whose server section omits auth_token fails load
with ParseError and the holder stays uninitialized. -/
theorem C6_missing_required_field_witness :
    load_config (fun _ => some "t") (fun _ => some (Yaml.map noTokenEntries))
      "config.yaml" none = (.error .parseError, none) :=
  C6_missing_required_field (fun _ => some "t")
    (fun _ => some (Yaml.map noTokenEntries)) "config.yaml" "t"
    (Yaml.map noTokenEntries) rfl rfl rfl

/-- C7: loading a document whose backup mode token is neither "full" nor
"incremental" fails with ParseError and leaves the holder uninitialized. -/
theorem C7_invalid_mode_token (readFile : String → Option String)
    (parseYaml : String → Option Yaml) (path txt : String)
    (entries bentries : List (String × Yaml)) (s : String)
    (hread : readFile path = some txt)
    (hparse : parseYaml txt = some (Yaml.map entries))
    (hback : Yaml.find entries "backup" = some (Yaml.map bentries))
    (hmode : Yaml.find bentries "mode" = some (Yaml.str s))
    (h1 : s ≠ "full") (h2 : s ≠ "incremental") :
    load_config readFile parseYaml path none = (.error .parseError, none) := by
  have hbm : deserializeBackupMode (Yaml.str s) = none := by
    simp [deserializeBackupMode, h1, h2]
  have hbc : deserializeBackupConfig (Yaml.map bentries) = none := by
    simp [deserializeBackupConfig, deserializeReqField, hmode, hbm]
  have hde : deserializeCratisConfig (Yaml.map entries) = none := by
    cases hcl : deserializeReqField deserializeClientConfig entries "client" with
    | none => simp [deserializeCratisConfig, hcl]
    | some c1 => simp [deserializeCratisConfig, deserializeReqField, hcl, hback, hbc]
  simp [load_config, hread, hparse, hde]

/-- C7 witness: a document with mode token weekly fails load with ParseError
and the holder stays uninitialized. -/
theorem C7_invalid_mode_token_witness :
    load_config (fun _ => some "t") (fun _ => some (Yaml.map weeklyEntries))
      "config.yaml" none = (.error .parseError, none) :=
  C7_invalid_mode_token (fun _ => some "t")
    (fun _ => some (Yaml.map weeklyEntries)) "config.yaml" "t"
    weeklyEntries weeklyBackupEntries "weekly" rfl rfl rfl rfl
    (by decide) (by decide)

/-- Lookup misses entirely in a mapping none of whose keys is the one sought. -/
theorem find_eq_none_of_keys (extra : List (String × Yaml)) (key : String)
    (h : ∀ kv ∈ extra, kv.1 ≠ key) : Yaml.find extra key = none := by
  induction extra with
  | nil => rfl
  | cons kv rest ih =>
      obtain ⟨k, v⟩ := kv
      have hk : k ≠ key := h (k, v) (List.mem_cons_self _ _)
      simp only [Yaml.find, hk, if_false]
      exact ih fun kv hm => h kv (List.mem_cons_of_mem _ hm)

/-- Appending entries whose keys differ from the one sought does not change
lookup. -/
theorem find_append (entries extra : List (String × Yaml)) (key : String)
    (h : ∀ kv ∈ extra, kv.1 ≠ key) :
    Yaml.find (entries ++ extra) key = Yaml.find entries key := by
  induction entries with
  | nil =>
      simpa [Yaml.find] using find_eq_none_of_keys extra key h
  | cons kv rest ih =>
      obtain ⟨k, v⟩ := kv
      by_cases hk : k = key <;> simp [Yaml.find, hk, ih]

/-- C10: deserialization ignores unknown keys (no deny_unknown_fields in the
source): appending extra entries whose keys are not in the respective struct's
schema leaves every deserializer's result unchanged, at the top level and
inside each section, so a load of the extended document still succeeds with
the same configuration. -/
theorem C10_unknown_fields_ignored (entries extra : List (String × Yaml)) :
    ((∀ kv ∈ extra, kv.1 ∉ (["client", "backup", "server", "advanced"] : List String)) →
       deserializeCratisConfig (Yaml.map (entries ++ extra))
         = deserializeCratisConfig (Yaml.map entries)) ∧
    ((∀ kv ∈ extra, kv.1 ∉ (["id", "name"] : List String)) →
       deserializeClientConfig (Yaml.map (entries ++ extra))
         = deserializeClientConfig (Yaml.map entries)) ∧
    ((∀ kv ∈ extra, kv.1 ∉
         (["mode", "watch_directories", "exclude", "interval_seconds"] : List String)) →
       deserializeBackupConfig (Yaml.map (entries ++ extra))
         = deserializeBackupConfig (Yaml.map entries)) ∧
    ((∀ kv ∈ extra, kv.1 ∉ (["address", "auth_token"] : List String)) →
       deserializeServerConfig (Yaml.map (entries ++ extra))
         = deserializeServerConfig (Yaml.map entries)) ∧
    ((∀ kv ∈ extra, kv.1 ∉
         (["max_file_size_mb", "retry_attempts", "retry_delay_seconds",
           "enable_notifications"] : List String)) →
       deserializeAdvancedConfig (Yaml.map (entries ++ extra))
         = deserializeAdvancedConfig (Yaml.map entries)) ∧
    (∀ (readFile : String → Option String) (parseYaml : String → Option Yaml)
       (path txt : String) (c : CratisConfig),
       readFile path = some txt →
       parseYaml txt = some (Yaml.map (entries ++ extra)) →
       (∀ kv ∈ extra, kv.1 ∉ (["client", "backup", "server", "advanced"] : List String)) →
       deserializeCratisConfig (Yaml.map entries) = some c →
       load_config readFile parseYaml path none = (.ok (), some c)) := by
  have keyNe : ∀ (keys : List String) (key : String), key ∈ keys →
      (∀ kv ∈ extra, kv.1 ∉ keys) → ∀ kv ∈ extra, kv.1 ≠ key := by
    intro keys key hmem hdisj kv hkv heq
    exact hdisj kv hkv (heq ▸ hmem)
  have hroot : (∀ kv ∈ extra,
      kv.1 ∉ (["client", "backup", "server", "advanced"] : List String)) →
      deserializeCratisConfig (Yaml.map (entries ++ extra))
        = deserializeCratisConfig (Yaml.map entries) := by
    intro hdisj
    have h1 := find_append entries extra "client" (keyNe _ _ (by simp) hdisj)
    have h2 := find_append entries extra "backup" (keyNe _ _ (by simp) hdisj)
    have h3 := find_append entries extra "server" (keyNe _ _ (by simp) hdisj)
    have h4 := find_append entries extra "advanced" (keyNe _ _ (by simp) hdisj)
    simp [deserializeCratisConfig, deserializeReqField, deserializeOptField,
      h1, h2, h3, h4]
  refine ⟨hroot, ?_, ?_, ?_, ?_, ?_⟩
  · intro hdisj
    have h1 := find_append entries extra "id" (keyNe _ _ (by simp) hdisj)
    have h2 := find_append entries extra "name" (keyNe _ _ (by simp) hdisj)
    simp [deserializeClientConfig, deserializeReqField, h1, h2]
  · intro hdisj
    have h1 := find_append entries extra "mode" (keyNe _ _ (by simp) hdisj)
    have h2 := find_append entries extra "watch_directories" (keyNe _ _ (by simp) hdisj)
    have h3 := find_append entries extra "exclude" (keyNe _ _ (by simp) hdisj)
    have h4 := find_append entries extra "interval_seconds" (keyNe _ _ (by simp) hdisj)
    simp [deserializeBackupConfig, deserializeReqField, deserializeOptField,
      h1, h2, h3, h4]
  · intro hdisj
    have h1 := find_append entries extra "address" (keyNe _ _ (by simp) hdisj)
    have h2 := find_append entries extra "auth_token" (keyNe _ _ (by simp) hdisj)
    simp [deserializeServerConfig, deserializeReqField, h1, h2]
  · intro hdisj
    have h1 := find_append entries extra "max_file_size_mb" (keyNe _ _ (by simp) hdisj)
    have h2 := find_append entries extra "retry_attempts" (keyNe _ _ (by simp) hdisj)
    have h3 := find_append entries extra "retry_delay_seconds" (keyNe _ _ (by simp) hdisj)
    have h4 := find_append entries extra "enable_notifications" (keyNe _ _ (by simp) hdisj)
    simp [deserializeAdvancedConfig, deserializeOptField, h1, h2, h3, h4]
  · intro readFile parseYaml path txt c hread hparse hdisj hde
    have hx : deserializeCratisConfig (Yaml.map (entries ++ extra)) = some c :=
      (hroot hdisj).trans hde
    simp [load_config, hread, hparse, hx]

/-- C10 witness: appending an unknown key to the example document leaves
deserialization unchanged and the load still succeeds with the example
configuration. -/
theorem C10_unknown_fields_ignored_witness :
    load_config (fun _ => some "t")
      (fun _ => some (Yaml.map (exDocEntries ++ [("extra_key", Yaml.str "x")])))
      "config.yaml" none = (.ok (), some exCfg) :=
  (C10_unknown_fields_ignored exDocEntries [("extra_key", Yaml.str "x")]).2.2.2.2.2
    (fun _ => some "t")
    (fun _ => some (Yaml.map (exDocEntries ++ [("extra_key", Yaml.str "x")])))
    "config.yaml" "t" exCfg rfl rfl (by simp) rfl

end Cratis
